import Mathlib

set_option autoImplicit false

/-!
# Verification of the Unbounded interaction pipeline

A shallow embedding of the core of the `unbounded` repository: the
Interaction Pipeline (Orchestrator, State Repository with clamping and
decay, Response Parser, Generation Client retry policy, atomic
persistence) and the two frontend handlers of the character detail page
(`handleSubmit` and `fetchData`).

The repository ships the backend only as documentation (`backend/API.md`,
`ARCHITECTURE.md`, `README.md`, `progress.md`) plus Docker scaffolding;
the Python service code itself is not part of the source tree.  The
backend definitions below are therefore modelled from the specification,
as marked on each definition.  The frontend page handlers are embedded
directly from the Next.js page source.
-/

namespace Unbounded

/-- Configured inclusive bounds for every vital.  Modelled from the spec:
vitals are "bounded numeric scales, e.g. 0-100", clamped into `[lo, hi]`. -/
structure Bounds where
  lo : Int
  hi : Int
deriving DecidableEq, Repr

/-- A character: identity is the key of the store map, so only the payload
fields appear here.  Modelled from the spec data model (the backend model
code is not in the tree). -/
structure Character where
  name : String
  personality : String
  backstory : Option String
deriving DecidableEq, Repr

/-- Mutable simulated state tied 1:1 to a character.  Modelled from the
spec and the `GameState` schema of `backend/API.md` (integer vitals,
location, activity, timestamp). -/
structure CharacterState where
  health : Int
  energy : Int
  happiness : Int
  hunger : Int
  fatigue : Int
  stress : Int
  location : String
  activity : String
  lastUpdated : Nat
deriving DecidableEq, Repr

/-- Transient structured reply {text, emotion?, action?}.  Modelled from
the spec data model. -/
structure GeneratedReply where
  text : String
  emotion : Option String
  action : Option String
deriving DecidableEq, Repr

/-- One logged user/character exchange.  Modelled from the spec data model
and the `Interaction` schema of `backend/API.md`. -/
structure Interaction where
  characterId : Nat
  content : String
  response : GeneratedReply
  timestamp : Nat
deriving DecidableEq, Repr

/-- An immutable recollection unit.  Modelled from the spec data model. -/
structure MemoryFragment where
  characterId : Nat
  content : String
  createdAt : Nat
deriving DecidableEq, Repr

/-- Clamp one vital into the configured bounds.  Modelled from the spec:
"never reject, always clamp into [min,max]". -/
def clampVital (b : Bounds) (v : Int) : Int :=
  max b.lo (min b.hi v)

/-- Clamp all six vitals of a state.  Modelled from the spec: the State
Repository enforces the vitals-bounds invariant on every write. -/
def clampState (b : Bounds) (st : CharacterState) : CharacterState :=
  { st with
    health := clampVital b st.health
    energy := clampVital b st.energy
    happiness := clampVital b st.happiness
    hunger := clampVital b st.hunger
    fatigue := clampVital b st.fatigue
    stress := clampVital b st.stress }

/-- All six vitals of a state lie inside the configured bounds. -/
def inBounds (b : Bounds) (st : CharacterState) : Prop :=
  b.lo ≤ st.health ∧ st.health ≤ b.hi ∧
  b.lo ≤ st.energy ∧ st.energy ≤ b.hi ∧
  b.lo ≤ st.happiness ∧ st.happiness ≤ b.hi ∧
  b.lo ≤ st.hunger ∧ st.hunger ≤ b.hi ∧
  b.lo ≤ st.fatigue ∧ st.fatigue ≤ b.hi ∧
  b.lo ≤ st.stress ∧ st.stress ≤ b.hi

instance (b : Bounds) (st : CharacterState) : Decidable (inBounds b st) := by
  unfold inBounds; infer_instance

/-- The character store: id keyed entries holding the character and its
1:1 state.  Modelled from the spec persisted layout. -/
abbrev CharStore := List (Nat × Character × CharacterState)

/-- Find the character and state stored under an id. -/
def findChar (cid : Nat) : CharStore → Option (Character × CharacterState)
  | [] => none
  | (i, c, s) :: rest => if i = cid then some (c, s) else findChar cid rest

/-- Replace the state stored under an id, leaving everything else as is. -/
def updateChar (cid : Nat) (st : CharacterState) : CharStore → CharStore
  | [] => []
  | (i, c, s) :: rest =>
      if i = cid then (i, c, st) :: rest else (i, c, s) :: updateChar cid st rest

/-- The durable world the pipeline reads and writes: character store,
append-only interaction log, append-only memory store.  Modelled from the
spec persisted layout. -/
structure World where
  chars : CharStore
  interactions : List Interaction
  memories : List MemoryFragment
deriving DecidableEq, Repr

/-- `save` of the State Repository: clamps every vital into the bounds and
writes the state under the id; it is total (never rejects).  Modelled from
the spec: "both must enforce the vitals-bounds invariant on write ...
clamp is the chosen policy: never reject, always clamp into [min,max]". -/
def save (b : Bounds) (cid : Nat) (st : CharacterState) (w : World) : World :=
  { w with chars := updateChar cid (clampState b st) w.chars }

/-- Configuration of the deterministic background decay: one neutral
baseline per vital and a nonnegative per-time-unit rate.  Modelled from
the spec: "time-based drift toward neutral values — decay policy must be
explicit and deterministic given elapsed time". -/
structure DecayCfg where
  rate : Nat
  healthBase : Int
  energyBase : Int
  happinessBase : Int
  hungerBase : Int
  fatigueBase : Int
  stressBase : Int
deriving DecidableEq, Repr

/-- Drift one vital toward its baseline by at most `amt`, never past the
baseline.  Modelled from the spec: "monotonic drift of each vital toward
a neutral baseline, magnitude proportional to elapsed time, capped so a
very long elapsed interval cannot overshoot the baseline". -/
def decayVital (base amt v : Int) : Int :=
  if base ≤ v then max base (v - amt) else min base (v + amt)

/-- The value `x` lies between `v` and `base`, and its distance from `v`
is exactly `min amt dist` where `dist` is the distance from `v` to
`base`: the drift moved toward the baseline by an amount proportional to
`amt` and capped at the baseline. -/
def driftsToward (base amt v x : Int) : Prop :=
  (base ≤ v → base ≤ x ∧ x ≤ v ∧ v - x = min amt (v - base)) ∧
  (v ≤ base → v ≤ x ∧ x ≤ base ∧ x - v = min amt (base - v))

instance (base amt v x : Int) : Decidable (driftsToward base amt v x) := by
  unfold driftsToward; infer_instance

/-- Pure deterministic decay of a full state given elapsed time.
Modelled from the spec: `decay(state, elapsed) -> state`. -/
def decay (cfg : DecayCfg) (st : CharacterState) (elapsed : Nat) : CharacterState :=
  let amt : Int := (cfg.rate * elapsed : Nat)
  { st with
    health := decayVital cfg.healthBase amt st.health
    energy := decayVital cfg.energyBase amt st.energy
    happiness := decayVital cfg.happinessBase amt st.happiness
    hunger := decayVital cfg.hungerBase amt st.hunger
    fatigue := decayVital cfg.fatigueBase amt st.fatigue
    stress := decayVital cfg.stressBase amt st.stress
    lastUpdated := st.lastUpdated + elapsed }

/-- An example decay configuration used by concrete witnesses. -/
def cfgDecayEx : DecayCfg := ⟨2, 50, 50, 50, 50, 50, 50⟩

/-- An example character state used by concrete witnesses. -/
def stEx : CharacterState := ⟨90, 10, 50, 70, 30, 55, String.mk [], String.mk [], 7⟩

/-! ## Response Parser

Modelled from the spec: the parser expects "a recognizable
delimited/structured format (e.g. a text body plus optional
emotion/action tags); extracts fields with a tolerant scan.  Never fails
outright — guarantees a non-null `text` field at minimum (falls back to
the raw input)".  Raw generated output is embedded as its list of lines;
a well-formed output carries a `TEXT: ` line with a non-empty body and
optional `EMOTION: ` / `ACTION: ` lines. -/

/-- Tag that opens the dialogue-text line of a structured reply. -/
def textTag : String := "TEXT: "

/-- Tag that opens the emotion line of a structured reply. -/
def emotionTag : String := "EMOTION: "

/-- Tag that opens the action line of a structured reply. -/
def actionTag : String := "ACTION: "

/-- The newline separator used to reassemble raw lines. -/
def lineSep : String := "\n"

/-- Reassemble raw lines into the full raw text. -/
def joinLines (raw : List String) : String :=
  String.intercalate lineSep raw

/-- Tolerant scan of one line: if the line starts with `tag` and has a
non-empty body after it, return that body. -/
def tagBody (tag l : String) : Option String :=
  if tag.data = l.data.take tag.data.length ∧ tag.data.length < l.data.length
  then some (String.mk (l.data.drop tag.data.length)) else none

/-- Scan the raw lines for the first one carrying the given tag. -/
def firstTag (tag : String) : List String → Option String
  | [] => none
  | l :: rest =>
      match tagBody tag l with
      | some b => some b
      | none => firstTag tag rest

/-- `parse(raw_text) -> GeneratedReply`: extract the tagged fields when a
text line is present, otherwise fall back to the entire raw input as
`text` with null `emotion` and `action`.  Total on every input. -/
def parse (raw : List String) : GeneratedReply :=
  match firstTag textTag raw with
  | some t =>
      { text := t
        emotion := firstTag emotionTag raw
        action := firstTag actionTag raw }
  | none => { text := joinLines raw, emotion := none, action := none }

/-- Encode a structured reply in the delimited format the parser
recognizes: one tagged line per present field. -/
def render (r : GeneratedReply) : List String :=
  (textTag ++ r.text) ::
    ((match r.emotion with
      | some e => [emotionTag ++ e]
      | none => []) ++
     (match r.action with
      | some a => [actionTag ++ a]
      | none => []))

/-- Example dialogue text. -/
def exText : String := "Hello there"

/-- Example emotion tag value. -/
def exEmotion : String := "happy"

/-- Example action tag value. -/
def exAction : String := "rest"

/-- Example unstructured line. -/
def exGibberish : String := "I wander the fields."

/-- An example well-formed reply used by concrete witnesses. -/
def replyEx : GeneratedReply :=
  { text := exText, emotion := some exEmotion, action := some exAction }

/-- Example malformed raw output (no recognizable text line). -/
def rawMalformedEx : List String := [exGibberish]

/-! ## Generation Client, Orchestrator and persistence

Modelled from the spec: `handle(character_id, user_message) ->
GeneratedReply` sequencing validation, load, decay, memory retrieval,
context assembly, generation with one retry, parsing, the deterministic
state-transition rule set, and the atomic persistence of the updated
state, the interaction record and the new memory fragments. -/

/-- Strip leading and trailing whitespace characters.  Kernel-computable
embedding of string trimming, used for the "non-empty after trimming"
validation of the spec and the frontend's `input.trim()`. -/
def trimStr (s : String) : String :=
  String.mk (((s.data.dropWhile Char.isWhitespace).reverse.dropWhile
    Char.isWhitespace).reverse)

/-- Uniform error kinds of the Generation Client. -/
inductive GenErrorKind
  | timeout
  | providerError
  | invalidResponse
deriving DecidableEq, Repr

/-- The pipeline's error taxonomy. -/
inductive PipelineError
  | validationFailed
  | notFound
  | generationFailed (k : GenErrorKind)
  | persistenceFailed
deriving DecidableEq, Repr

/-- A generation failure kind is transient when a retry may help. -/
def transientKind (k : GenErrorKind) : Prop :=
  k = GenErrorKind.timeout ∨ k = GenErrorKind.providerError

instance (k : GenErrorKind) : Decidable (transientKind k) := by
  unfold transientKind; infer_instance

/-- The generation request the Context Assembler produces.  Modelled from
the spec: personality/backstory summary, compact vitals rendering,
memories in relevance order, and the new user message. -/
structure GenerationRequest where
  personality : String
  backstory : Option String
  vitals : CharacterState
  memories : List String
  userMessage : String
deriving DecidableEq, Repr

/-- `build(character, state, memories, user_message)`: the pure context
assembly step.  Modelled from the spec. -/
def build (ch : Character) (st : CharacterState) (mems : List MemoryFragment)
    (msg : String) : GenerationRequest :=
  { personality := ch.personality
    backstory := ch.backstory
    vitals := st
    memories := mems.map MemoryFragment.content
    userMessage := msg }

/-- The per-turn environment of one `handle` call: the wall clock, the
Memory Store query results, the outcome of each Generation Client
attempt on a request, and whether the durable store accepts the atomic
commit.  Modelled from the spec's external collaborators. -/
structure Env where
  now : Nat
  retrieve : Nat → String → List MemoryFragment
  gen : Nat → GenerationRequest → Except GenErrorKind (List String)
  persistOk : Bool

/-- Pipeline configuration: vitals bounds, decay policy and the top-K
memory constant.  Modelled from the spec. -/
structure Config where
  bounds : Bounds
  decayCfg : DecayCfg
  topK : Nat

/-- One Generation Client attempt with the uniform error contract: a raw
reply that is empty once joined is an `invalidResponse`.  Modelled from
the spec. -/
def runAttempt (env : Env) (q : GenerationRequest) (i : Nat) :
    Except GenErrorKind (List String) :=
  match env.gen i q with
  | Except.error e => Except.error e
  | Except.ok raw =>
      if joinLines raw = String.mk [] then Except.error GenErrorKind.invalidResponse
      else Except.ok raw

/-- The Orchestrator's generation step: try once, and on failure retry
exactly once; if the retry also fails, surface that failure.  Modelled
from the spec: "on transient failure (timeout, provider error) retry
once with backoff, then fail with GenerationError — never silently
fabricate a reply". -/
def generateWithRetry (env : Env) (q : GenerationRequest) :
    Except GenErrorKind (List String) :=
  match runAttempt env q 0 with
  | Except.ok raw => Except.ok raw
  | Except.error _ => runAttempt env q 1

/-- Vital deltas of one interaction. -/
structure Deltas where
  dHealth : Int
  dEnergy : Int
  dHappiness : Int
  dHunger : Int
  dFatigue : Int
  dStress : Int
deriving DecidableEq, Repr

/-- The action word that triggers the resting rule. -/
def restWord : String := "rest"

/-- The action word that triggers the combat rule. -/
def combatWord : String := "combat"

/-- Deltas of a resting turn: energy up, fatigue and stress down. -/
def restDeltas : Deltas := ⟨0, 15, 5, 5, -20, -10⟩

/-- Deltas of a combat turn: energy down, stress and fatigue up. -/
def combatDeltas : Deltas := ⟨-10, -15, 0, 10, 15, 10⟩

/-- Deltas of an ordinary conversational turn. -/
def defaultDeltas : Deltas := ⟨0, -2, 1, 3, 2, -1⟩

/-- The deterministic rule set mapping the parsed action tag to vital
deltas.  Modelled from the spec: "a combat action reduces energy and
increases stress; a rest action increases energy and reduces fatigue". -/
def actionDeltas (a : Option String) : Deltas :=
  match a with
  | some s => if s = restWord then restDeltas
              else if s = combatWord then combatDeltas
              else defaultDeltas
  | none => defaultDeltas

/-- Apply the state-transition rule set for one interaction: add the
action's deltas to the vitals, record the action as the current activity
and stamp the state with the turn's time.  Clamping to bounds happens on
`save`.  Modelled from the spec step 7. -/
def applyRules (rep : GeneratedReply) (st : CharacterState) (now : Nat) :
    CharacterState :=
  let d := actionDeltas rep.action
  { st with
    health := st.health + d.dHealth
    energy := st.energy + d.dEnergy
    happiness := st.happiness + d.dHappiness
    hunger := st.hunger + d.dHunger
    fatigue := st.fatigue + d.dFatigue
    stress := st.stress + d.dStress
    activity := rep.action.getD st.activity
    lastUpdated := now }

/-- The separator of the turn summary stored as a memory fragment. -/
def summarySep : String := " / "

/-- The memory fragments created by one turn: a single summary of the
exchange.  Modelled from the spec step 8 ("zero-or-more new
MemoryFragments, e.g. summarizing this turn"). -/
def mkFragments (cid : Nat) (msg : String) (rep : GeneratedReply) (now : Nat) :
    List MemoryFragment :=
  [{ characterId := cid, content := msg ++ summarySep ++ rep.text, createdAt := now }]

/-- The interaction record of one completed turn. -/
def mkRecord (cid : Nat) (msg : String) (rep : GeneratedReply) (now : Nat) :
    Interaction :=
  { characterId := cid, content := msg, response := rep, timestamp := now }

/-- The atomic persistence unit of one turn: clamp-and-save the updated
state, append the interaction record, append the new fragments — all in
one step.  Modelled from the spec step 8. -/
def persist (b : Bounds) (cid : Nat) (st : CharacterState) (rec : Interaction)
    (frags : List MemoryFragment) (w : World) : World :=
  { save b cid st w with
    interactions := w.interactions ++ [rec]
    memories := w.memories ++ frags }

/-- The request assembled for one turn: character, decayed state, top-K
retrieved memories, user message. -/
def pipelineRequest (cfg : Config) (env : Env) (ch : Character)
    (st : CharacterState) (cid : Nat) (msg : String) : GenerationRequest :=
  build ch (decay cfg.decayCfg st (env.now - st.lastUpdated))
    ((env.retrieve cid msg).take cfg.topK) msg

/-- `handle(character_id, user_message)`: the Interaction Orchestrator.
Returns the resulting world together with the reply or the pipeline
error; on any failure the returned world is the input world unchanged.
Modelled from the spec section 4.1. -/
def handle (cfg : Config) (env : Env) (w : World) (cid : Nat) (msg : String) :
    World × Except PipelineError GeneratedReply :=
  if trimStr msg = String.mk [] then (w, Except.error PipelineError.validationFailed)
  else
    match findChar cid w.chars with
    | none => (w, Except.error PipelineError.notFound)
    | some (ch, st0) =>
        let st1 := decay cfg.decayCfg st0 (env.now - st0.lastUpdated)
        match generateWithRetry env (pipelineRequest cfg env ch st0 cid msg) with
        | Except.error k => (w, Except.error (PipelineError.generationFailed k))
        | Except.ok raw =>
            let rep := parse raw
            let st2 := applyRules rep st1 env.now
            if env.persistOk then
              (persist cfg.bounds cid st2 (mkRecord cid msg rep env.now)
                (mkFragments cid msg rep env.now) w,
               Except.ok rep)
            else (w, Except.error PipelineError.persistenceFailed)

/-- Example bounds 0..100 used by concrete witnesses. -/
def bndEx : Bounds := ⟨0, 100⟩

/-- Example pipeline configuration used by concrete witnesses. -/
def cfgEx : Config := ⟨bndEx, cfgDecayEx, 5⟩

/-- Example character name. -/
def exName : String := "Aria"

/-- Example personality descriptor. -/
def exPersonality : String := "curious and kind"

/-- Example character used by concrete witnesses. -/
def charEx : Character := ⟨exName, exPersonality, none⟩

/-- Example world: one character with id 1 and empty logs. -/
def worldEx : World := ⟨[(1, charEx, stEx)], [], []⟩

/-- Example valid user message. -/
def exMsg : String := "Shall we rest?"

/-- Example message that trims to empty. -/
def blankMsg : String := "   "

/-- Example raw generated output carrying a well-formed text line. -/
def rawOkEx : List String := [textTag ++ exText]

/-- Example adversarially out-of-range state. -/
def stWildEx : CharacterState :=
  ⟨1000, -50, 250, -3, 190, -17, String.mk [], String.mk [], 3⟩

/-- Example healthy environment: generation succeeds at once, persistence
accepted. -/
def envOkEx : Env :=
  { now := 20
    retrieve := fun _ _ => []
    gen := fun _ _ => Except.ok rawOkEx
    persistOk := true }

/-- Example environment whose generation backend times out on every
attempt. -/
def envTimeoutEx : Env :=
  { now := 20
    retrieve := fun _ _ => []
    gen := fun _ _ => Except.error GenErrorKind.timeout
    persistOk := true }

/-- Example environment whose durable store refuses the atomic commit. -/
def envNoPersistEx : Env :=
  { now := 20
    retrieve := fun _ _ => []
    gen := fun _ _ => Except.ok rawOkEx
    persistOk := false }

/-- Interactions ordered by their timestamps. -/
def byTime (a b : Interaction) : Prop := a.timestamp ≤ b.timestamp

/-! ## Frontend: character detail page

Embedded from the page component source (the `handleSubmit` and
`fetchData` handlers and the component state hooks they touch). -/

/-- An interaction as the frontend API client returns it. -/
structure UIInteraction where
  id : String
  content : String
  response : GeneratedReply
deriving DecidableEq, Repr

/-- The component state of the character detail page: the `useState`
hooks `character`, `interactions`, `loading`, `error`, `input`,
`sending`. -/
structure DetailPageState where
  character : Option Character
  interactions : List UIInteraction
  loading : Bool
  error : Option String
  input : String
  sending : Bool
deriving DecidableEq, Repr

/-- `handleSubmit` of the detail page, embedded from the source: guard
`if (!input.trim() || sending) return;` (no request, no state change),
then one `interactionsApi.create` call whose outcome is `api`; on
success the response is appended to `interactions` and `input` cleared;
`sending` is reset in `finally`.  The second component is the message of
the request that was issued, if any. -/
def handleSubmit (s : DetailPageState) (api : Except String UIInteraction) :
    DetailPageState × Option String :=
  if trimStr s.input = String.mk [] ∨ s.sending then (s, none)
  else
    match api with
    | Except.ok resp =>
        ({ s with
            interactions := s.interactions ++ [resp]
            input := String.mk []
            sending := false },
         some s.input)
    | Except.error _ => ({ s with sending := false }, some s.input)

/-- The fallback error message of the detail page's fetch handler. -/
def fallbackErrMsg : String := "Failed to load character"

/-- `fetchData` of the detail page, embedded from the source: fetch the
character first; on success try the interactions list in a nested
try/catch whose failure only resets `interactions` to `[]`; the outer
catch sets `error` (from `err.message` or the fallback).  `loading` is
cleared on both paths.  `charRes` and `interRes` are the outcomes of the
two API calls; a successful interactions call may deliver `none` for a
null body (`interactionsData || []`). -/
def fetchData (charRes : Except String Character)
    (interRes : Except String (Option (List UIInteraction)))
    (s : DetailPageState) : DetailPageState :=
  match charRes with
  | Except.ok c =>
      let s1 := { s with character := some c }
      let s2 :=
        match interRes with
        | Except.ok data => { s1 with interactions := data.getD [] }
        | Except.error _ => { s1 with interactions := [] }
      { s2 with loading := false }
  | Except.error e =>
      { s with
        error := some (if e = String.mk [] then fallbackErrMsg else e)
        loading := false }

/-- Example detail-page component state. -/
def pageStateEx : DetailPageState :=
  { character := some charEx
    interactions := []
    loading := false
    error := none
    input := exMsg
    sending := false }

/-- Example id string of a frontend interaction. -/
def exId : String := "abc123"

/-- Example frontend interaction response. -/
def uiRespEx : UIInteraction := ⟨exId, exMsg, replyEx⟩

/-- Example error message of a failed fetch. -/
def exErrMsg : String := "network down"

theorem clampVital_mem (b : Bounds) (hb : b.lo ≤ b.hi) (v : Int) :
    b.lo ≤ clampVital b v ∧ clampVital b v ≤ b.hi := by
  unfold clampVital
  omega

theorem findChar_updateChar_self (cid : Nat) (st : CharacterState)
    (l : CharStore) (c0 : Character) (s0 : CharacterState)
    (h : findChar cid l = some (c0, s0)) :
    findChar cid (updateChar cid st l) = some (c0, st) := by
  induction l with
  | nil => simp [findChar] at h
  | cons e rest ih =>
      obtain ⟨i, c, s⟩ := e
      by_cases hi : i = cid
      · simp [findChar, updateChar, hi] at h ⊢
        simp_all
      · simp [findChar, updateChar, hi] at h ⊢
        exact ih h

/-- C1: after any `save` all six vitals of the stored state lie within the
configured bounds `[lo, hi]`, for every input state (hence for every
delta, however far out of range); `save` clamps and never rejects: the
stored value is exactly the clamped state. -/
theorem save_clamps (b : Bounds) (hb : b.lo ≤ b.hi) (cid : Nat)
    (st : CharacterState) (w : World) :
    inBounds b (clampState b st) ∧
    ∀ c0 s0, findChar cid w.chars = some (c0, s0) →
      findChar cid (save b cid st w).chars = some (c0, clampState b st) := by
  constructor
  · unfold inBounds clampState
    refine ⟨?_, ?_, ?_, ?_, ?_, ?_, ?_, ?_, ?_, ?_, ?_, ?_⟩ <;>
      first
        | exact (clampVital_mem b hb _).1
        | exact (clampVital_mem b hb _).2
  · intro c0 s0 h
    exact findChar_updateChar_self cid (clampState b st) w.chars c0 s0 h

theorem decayVital_drift (base amt v : Int) (hamt : 0 ≤ amt) :
    driftsToward base amt v (decayVital base amt v) := by
  unfold driftsToward decayVital
  constructor <;> intro h <;> split <;> omega

theorem decayVital_zero (base v : Int) : decayVital base 0 v = v := by
  unfold decayVital
  split <;> omega

/-- C5: `decay` is a pure function of `(state, elapsed)` (determinism by
construction); at `elapsed = 0` it is the identity; and for every elapsed
time each of the six vitals drifts toward its configured baseline by
exactly `min (rate * elapsed) dist` — proportional to elapsed time,
monotone toward the baseline and capped so it never moves past it. -/
theorem decay_properties (cfg : DecayCfg) (st : CharacterState) :
    decay cfg st 0 = st ∧
    ∀ e : Nat,
      driftsToward cfg.healthBase ((cfg.rate * e : Nat) : Int) st.health
        (decay cfg st e).health ∧
      driftsToward cfg.energyBase ((cfg.rate * e : Nat) : Int) st.energy
        (decay cfg st e).energy ∧
      driftsToward cfg.happinessBase ((cfg.rate * e : Nat) : Int) st.happiness
        (decay cfg st e).happiness ∧
      driftsToward cfg.hungerBase ((cfg.rate * e : Nat) : Int) st.hunger
        (decay cfg st e).hunger ∧
      driftsToward cfg.fatigueBase ((cfg.rate * e : Nat) : Int) st.fatigue
        (decay cfg st e).fatigue ∧
      driftsToward cfg.stressBase ((cfg.rate * e : Nat) : Int) st.stress
        (decay cfg st e).stress := by
  constructor
  · cases st
    simp [decay, decayVital_zero]
  · intro e
    have hamt : (0 : Int) ≤ ((cfg.rate * e : Nat) : Int) := Int.natCast_nonneg _
    refine ⟨?_, ?_, ?_, ?_, ?_, ?_⟩ <;>
      exact decayVital_drift _ _ _ hamt

/-- Closed evaluation check of decay on a concrete state. -/
theorem decay_concrete_check :
    decay cfgDecayEx stEx 5 = ⟨80, 20, 50, 60, 40, 50, String.mk [], String.mk [], 12⟩ :=
  rfl

/-- Witness for C5 at a concrete configuration, state and elapsed time. -/
theorem decay_properties_witness :
    decay cfgDecayEx stEx 0 = stEx ∧
    driftsToward cfgDecayEx.healthBase ((cfgDecayEx.rate * 5 : Nat) : Int)
      stEx.health (decay cfgDecayEx stEx 5).health :=
  ⟨(decay_properties cfgDecayEx stEx).1, ((decay_properties cfgDecayEx stEx).2 5).1⟩

theorem tagBody_self_append (tag t : String) (ht : t ≠ String.mk []) :
    tagBody tag (tag ++ t) = some t := by
  have hdata : (tag ++ t).data = tag.data ++ t.data := rfl
  have htd : t.data ≠ [] := by
    intro h
    exact ht (by cases t; simp_all)
  unfold tagBody
  rw [if_pos]
  · congr 1
    rw [hdata, List.drop_left]
  · constructor
    · rw [hdata, List.take_left]
    · rw [hdata, List.length_append]
      have := List.length_pos.2 htd
      omega

theorem tagBody_head_ne (tag l : String) (c d : Char) (ct dt : List Char)
    (htag : tag.data = c :: ct) (hl : l.data = d :: dt) (hne : c ≠ d) :
    tagBody tag l = none := by
  unfold tagBody
  rw [if_neg]
  intro hcon
  obtain ⟨h1, _⟩ := hcon
  rw [htag, hl] at h1
  simp [List.take] at h1
  exact hne h1.1

theorem tagBody_some_ne (tag l t : String) (h : tagBody tag l = some t) :
    t ≠ String.mk [] := by
  unfold tagBody at h
  split at h
  · rename_i hcond
    obtain ⟨rfl⟩ := Option.some.inj h.symm
    intro hcon
    have : (l.data.drop tag.data.length) = [] := by
      have := congrArg String.data hcon
      simpa using this
    rw [List.drop_eq_nil_iff] at this
    omega
  · exact absurd h (by simp)

theorem firstTag_ne (tag : String) (raw : List String) (t : String)
    (h : firstTag tag raw = some t) : t ≠ String.mk [] := by
  induction raw with
  | nil => simp [firstTag] at h
  | cons a rest ih =>
      rw [firstTag] at h
      cases hb : tagBody tag a with
      | some b =>
          rw [hb] at h
          exact Option.some.inj h ▸ tagBody_some_ne tag a b hb
      | none =>
          rw [hb] at h
          exact ih h

/-- The text the parser returns is non-empty whenever the joined raw
input is non-empty. -/
theorem parse_text_ne (raw : List String) (h : joinLines raw ≠ String.mk []) :
    (parse raw).text ≠ String.mk [] := by
  unfold parse
  cases hf : firstTag textTag raw with
  | some t =>
      simpa using firstTag_ne textTag raw t hf
  | none => simpa using h

theorem tagBody_append_ne (tag pre t : String) (c d : Char) (ct dt : List Char)
    (h1 : tag.data = c :: ct) (h2 : pre.data = d :: dt) (hne : c ≠ d) :
    tagBody tag (pre ++ t) = none := by
  have hl : (pre ++ t).data = d :: (dt ++ t.data) := by
    show pre.data ++ t.data = _
    rw [h2]
    rfl
  exact tagBody_head_ne tag (pre ++ t) c d ct (dt ++ t.data) h1 hl hne

theorem parse_render (r : GeneratedReply) (ht : r.text ≠ String.mk [])
    (he : ∀ e, r.emotion = some e → e ≠ String.mk [])
    (ha : ∀ a, r.action = some a → a ≠ String.mk []) :
    parse (render r) = r := by
  obtain ⟨t, em, ac⟩ := r
  simp only at ht
  have hTT : tagBody textTag (textTag ++ t) = some t := tagBody_self_append _ _ ht
  have hET : ∀ s, tagBody emotionTag (textTag ++ s) = none := fun s =>
    tagBody_append_ne emotionTag textTag s 'E' 'T' _ _ rfl rfl (by decide)
  have hAT : ∀ s, tagBody actionTag (textTag ++ s) = none := fun s =>
    tagBody_append_ne actionTag textTag s 'A' 'T' _ _ rfl rfl (by decide)
  have hTE : ∀ s, tagBody textTag (emotionTag ++ s) = none := fun s =>
    tagBody_append_ne textTag emotionTag s 'T' 'E' _ _ rfl rfl (by decide)
  have hAE : ∀ s, tagBody actionTag (emotionTag ++ s) = none := fun s =>
    tagBody_append_ne actionTag emotionTag s 'A' 'E' _ _ rfl rfl (by decide)
  have hTA : ∀ s, tagBody textTag (actionTag ++ s) = none := fun s =>
    tagBody_append_ne textTag actionTag s 'T' 'A' _ _ rfl rfl (by decide)
  have hEA : ∀ s, tagBody emotionTag (actionTag ++ s) = none := fun s =>
    tagBody_append_ne emotionTag actionTag s 'E' 'A' _ _ rfl rfl (by decide)
  cases em with
  | none =>
      cases ac with
      | none =>
          simp [render, parse, firstTag, hTT, hET, hAT]
      | some a =>
          have ha' : a ≠ String.mk [] := ha a rfl
          have hAA : tagBody actionTag (actionTag ++ a) = some a :=
            tagBody_self_append _ _ ha'
          simp [render, parse, firstTag, hTT, hET, hAT, hTA, hEA, hAA]
  | some e =>
      have he' : e ≠ String.mk [] := he e rfl
      have hEE : tagBody emotionTag (emotionTag ++ e) = some e :=
        tagBody_self_append _ _ he'
      cases ac with
      | none =>
          simp [render, parse, firstTag, hTT, hET, hAT, hTE, hAE, hEE]
      | some a =>
          have ha' : a ≠ String.mk [] := ha a rfl
          have hAA : tagBody actionTag (actionTag ++ a) = some a :=
            tagBody_self_append _ _ ha'
          simp [render, parse, firstTag, hTT, hET, hAT, hTE, hAE, hEE, hTA, hEA, hAA]

/-- C6: for every well-formed structured raw output (the rendering of a
triple whose present fields are non-empty), `parse` returns exactly the
encoded {text, emotion, action} triple; and for every malformed input
(no recognizable text line) `parse` returns the entire raw input as
`text` with `emotion` and `action` null.  `parse` is a total function,
so it never fails on any input. -/
theorem parse_round_trip (r : GeneratedReply) (raw : List String)
    (ht : r.text ≠ String.mk [])
    (he : ∀ e, r.emotion = some e → e ≠ String.mk [])
    (ha : ∀ a, r.action = some a → a ≠ String.mk [])
    (hm : firstTag textTag raw = none) :
    parse (render r) = r ∧
    parse raw = { text := joinLines raw, emotion := none, action := none } := by
  refine ⟨parse_render r ht he ha, ?_⟩
  unfold parse
  rw [hm]

/-- Witness for C6 at a concrete well-formed reply and a concrete
malformed raw output. -/
theorem parse_round_trip_witness :
    parse (render replyEx) = replyEx ∧
    parse rawMalformedEx =
      { text := joinLines rawMalformedEx, emotion := none, action := none } :=
  parse_round_trip replyEx rawMalformedEx (by decide)
    (fun e h => by
      rw [show replyEx.emotion = some exEmotion from rfl] at h
      cases h
      decide)
    (fun a h => by
      rw [show replyEx.action = some exAction from rfl] at h
      cases h
      decide)
    (by decide)

/-- Witness for C1: saving an adversarially out-of-range state stores a
state with every vital inside the bounds. -/
theorem save_clamps_witness :
    inBounds bndEx (clampState bndEx stWildEx) ∧
    findChar 1 (save bndEx 1 stWildEx worldEx).chars =
      some (charEx, clampState bndEx stWildEx) :=
  ⟨(save_clamps bndEx (by decide) 1 stWildEx worldEx).1,
   (save_clamps bndEx (by decide) 1 stWildEx worldEx).2 charEx stEx rfl⟩

/-- Case analysis of `handle`: exactly one of the five outcomes applies,
and each failure leaves the world untouched. -/
theorem handle_spec (cfg : Config) (env : Env) (w : World) (cid : Nat)
    (msg : String) :
    (trimStr msg = String.mk [] ∧
      handle cfg env w cid msg = (w, Except.error PipelineError.validationFailed)) ∨
    (trimStr msg ≠ String.mk [] ∧ findChar cid w.chars = none ∧
      handle cfg env w cid msg = (w, Except.error PipelineError.notFound)) ∨
    (∃ ch st0 k, trimStr msg ≠ String.mk [] ∧
      findChar cid w.chars = some (ch, st0) ∧
      generateWithRetry env (pipelineRequest cfg env ch st0 cid msg) = Except.error k ∧
      handle cfg env w cid msg = (w, Except.error (PipelineError.generationFailed k))) ∨
    (∃ ch st0 raw, trimStr msg ≠ String.mk [] ∧
      findChar cid w.chars = some (ch, st0) ∧
      generateWithRetry env (pipelineRequest cfg env ch st0 cid msg) = Except.ok raw ∧
      env.persistOk = false ∧
      handle cfg env w cid msg = (w, Except.error PipelineError.persistenceFailed)) ∨
    (∃ ch st0 raw, trimStr msg ≠ String.mk [] ∧
      findChar cid w.chars = some (ch, st0) ∧
      generateWithRetry env (pipelineRequest cfg env ch st0 cid msg) = Except.ok raw ∧
      env.persistOk = true ∧
      handle cfg env w cid msg =
        (persist cfg.bounds cid
          (applyRules (parse raw)
            (decay cfg.decayCfg st0 (env.now - st0.lastUpdated)) env.now)
          (mkRecord cid msg (parse raw) env.now)
          (mkFragments cid msg (parse raw) env.now) w,
         Except.ok (parse raw))) := by
  by_cases hmsg : trimStr msg = String.mk []
  · exact Or.inl ⟨hmsg, by unfold handle; rw [if_pos hmsg]⟩
  · cases hc : findChar cid w.chars with
    | none =>
        exact Or.inr (Or.inl ⟨hmsg, rfl, by unfold handle; rw [if_neg hmsg, hc]⟩)
    | some p =>
        obtain ⟨ch, st0⟩ := p
        cases hg : generateWithRetry env (pipelineRequest cfg env ch st0 cid msg) with
        | error k =>
            refine Or.inr (Or.inr (Or.inl ⟨ch, st0, k, hmsg, rfl, hg, ?_⟩))
            unfold handle
            rw [if_neg hmsg, hc]
            simp only [hg]
        | ok raw =>
            cases hp : env.persistOk with
            | false =>
                refine Or.inr (Or.inr (Or.inr (Or.inl ⟨ch, st0, raw, hmsg, rfl, hg, rfl, ?_⟩)))
                unfold handle
                rw [if_neg hmsg, hc]
                simp only [hg, hp]
                rfl
            | true =>
                refine Or.inr (Or.inr (Or.inr (Or.inr ⟨ch, st0, raw, hmsg, rfl, hg, rfl, ?_⟩)))
                unfold handle
                rw [if_neg hmsg, hc]
                simp only [hg, hp]
                rfl

/-- C2: persistence is one atomic unit.  Whenever `handle` fails, the
returned world is exactly the input world — none of the three writes
happened; whenever it succeeds, the world carries all three writes: the
clamped updated state under the character's id, exactly one interaction
record appended, and the new memory fragments appended. -/
theorem handle_atomic_unit (cfg : Config) (env : Env) (w : World) (cid : Nat)
    (msg : String) :
    (∀ e, (handle cfg env w cid msg).2 = Except.error e →
      (handle cfg env w cid msg).1 = w) ∧
    (∀ rep, (handle cfg env w cid msg).2 = Except.ok rep →
      ∃ st2 rec frags,
        (handle cfg env w cid msg).1.chars =
          updateChar cid (clampState cfg.bounds st2) w.chars ∧
        (handle cfg env w cid msg).1.interactions = w.interactions ++ [rec] ∧
        (handle cfg env w cid msg).1.memories = w.memories ++ frags ∧
        rec.response = rep ∧ rec.content = msg ∧ rec.timestamp = env.now) := by
  rcases handle_spec cfg env w cid msg with
    ⟨_, hh⟩ | ⟨_, _, hh⟩ | ⟨ch, st0, k, _, _, _, hh⟩ |
    ⟨ch, st0, raw, _, _, _, _, hh⟩ | ⟨ch, st0, raw, _, _, _, _, hh⟩ <;> rw [hh]
  case _ =>
    constructor
    · intro e _; rfl
    · intro rep hrep; simp at hrep
  case _ =>
    constructor
    · intro e _; rfl
    · intro rep hrep; simp at hrep
  case _ =>
    constructor
    · intro e _; rfl
    · intro rep hrep; simp at hrep
  case _ =>
    constructor
    · intro e _; rfl
    · intro rep hrep; simp at hrep
  case _ =>
    constructor
    · intro e he; simp at he
    · intro rep hrep
      simp only [Except.ok.injEq] at hrep
      subst hrep
      exact ⟨applyRules (parse raw)
          (decay cfg.decayCfg st0 (env.now - st0.lastUpdated)) env.now,
        mkRecord cid msg (parse raw) env.now,
        mkFragments cid msg (parse raw) env.now,
        rfl, rfl, rfl, rfl, rfl, rfl⟩

/-- Witness for C2: with persistence refused, the call fails and the
world after the call is exactly the world before it. -/
theorem handle_atomic_unit_witness :
    (handle cfgEx envNoPersistEx worldEx 1 exMsg).1 = worldEx :=
  (handle_atomic_unit cfgEx envNoPersistEx worldEx 1 exMsg).1
    PipelineError.persistenceFailed rfl

theorem runAttempt_ok_ne (env : Env) (q : GenerationRequest) (i : Nat)
    (raw : List String) (h : runAttempt env q i = Except.ok raw) :
    joinLines raw ≠ String.mk [] := by
  unfold runAttempt at h
  cases hg : env.gen i q with
  | error e => simp [hg] at h
  | ok r =>
      simp only [hg] at h
      by_cases hne : joinLines r = String.mk []
      · rw [if_pos hne] at h
        exact absurd h (by simp)
      · rw [if_neg hne] at h
        obtain rfl : r = raw := Except.ok.inj h
        exact hne

theorem generateWithRetry_ok_ne (env : Env) (q : GenerationRequest)
    (raw : List String) (h : generateWithRetry env q = Except.ok raw) :
    joinLines raw ≠ String.mk [] := by
  unfold generateWithRetry at h
  cases h0 : runAttempt env q 0 with
  | ok r =>
      simp only [h0] at h
      obtain rfl : r = raw := by simpa using h
      exact runAttempt_ok_ne env q 0 r h0
  | error e =>
      simp only [h0] at h
      exact runAttempt_ok_ne env q 1 raw h

/-- C3: when the Generation Client fails transiently on the initial
attempt and on the single retry, `handle` surfaces the generation error
(kind `timeout` when the failures are timeouts, since the retry's kind is
surfaced), fabricates no reply, and returns the world — hence the
persisted CharacterState — exactly as it was before the call. -/
theorem handle_transient_double_failure (cfg : Config) (env : Env) (w : World)
    (cid : Nat) (msg : String) (ch : Character) (st0 : CharacterState)
    (k0 k1 : GenErrorKind)
    (hmsg : trimStr msg ≠ String.mk [])
    (hc : findChar cid w.chars = some (ch, st0))
    (h0 : ∀ q, env.gen 0 q = Except.error k0)
    (h1 : ∀ q, env.gen 1 q = Except.error k1)
    (ht0 : transientKind k0) (ht1 : transientKind k1) :
    handle cfg env w cid msg =
      (w, Except.error (PipelineError.generationFailed k1)) := by
  have hg : generateWithRetry env (pipelineRequest cfg env ch st0 cid msg) =
      Except.error k1 := by
    unfold generateWithRetry runAttempt
    rw [h0, h1]
  unfold handle
  rw [if_neg hmsg, hc]
  simp only [hg]

/-- Witness for C3: a concrete double timeout yields
`GenerationError{timeout}` and an unchanged world. -/
theorem handle_transient_double_failure_witness :
    handle cfgEx envTimeoutEx worldEx 1 exMsg =
      (worldEx, Except.error (PipelineError.generationFailed GenErrorKind.timeout)) :=
  handle_transient_double_failure cfgEx envTimeoutEx worldEx 1 exMsg charEx stEx
    GenErrorKind.timeout GenErrorKind.timeout (by decide) rfl (fun _ => rfl)
    (fun _ => rfl) (Or.inl rfl) (Or.inl rfl)

/-- C4: for an existing character and a user message that is non-empty
after trimming, whenever the Generation Client produces a response
within its retry budget and the store accepts the commit, `handle`
returns a GeneratedReply whose `text` is non-empty. -/
theorem handle_valid_reply_nonempty (cfg : Config) (env : Env) (w : World)
    (cid : Nat) (msg : String) (ch : Character) (st0 : CharacterState)
    (hmsg : trimStr msg ≠ String.mk [])
    (hc : findChar cid w.chars = some (ch, st0))
    (hgen : ∃ raw, generateWithRetry env (pipelineRequest cfg env ch st0 cid msg) =
      Except.ok raw)
    (hper : env.persistOk = true) :
    ∃ rep, (handle cfg env w cid msg).2 = Except.ok rep ∧
      rep.text ≠ String.mk [] := by
  obtain ⟨raw, hg⟩ := hgen
  refine ⟨parse raw, ?_, parse_text_ne raw (generateWithRetry_ok_ne env _ raw hg)⟩
  unfold handle
  rw [if_neg hmsg, hc]
  simp only [hg, hper]
  rfl

/-- Witness for C4 at a concrete healthy environment. -/
theorem handle_valid_reply_nonempty_witness :
    ∃ rep, (handle cfgEx envOkEx worldEx 1 exMsg).2 = Except.ok rep ∧
      rep.text ≠ String.mk [] :=
  handle_valid_reply_nonempty cfgEx envOkEx worldEx 1 exMsg charEx stEx
    (by decide) rfl ⟨rawOkEx, rfl⟩ rfl

/-- C7: `handle` fails with ValidationError exactly when the user message
trims to empty, and with NotFoundError exactly when the message is valid
but the character id references no stored character. -/
theorem handle_error_kinds (cfg : Config) (env : Env) (w : World) (cid : Nat)
    (msg : String) :
    ((handle cfg env w cid msg).2 = Except.error PipelineError.validationFailed ↔
      trimStr msg = String.mk []) ∧
    ((handle cfg env w cid msg).2 = Except.error PipelineError.notFound ↔
      (trimStr msg ≠ String.mk [] ∧ findChar cid w.chars = none)) := by
  rcases handle_spec cfg env w cid msg with
    ⟨hmsg, hh⟩ | ⟨hmsg, hc, hh⟩ | ⟨ch, st0, k, hmsg, hc, _, hh⟩ |
    ⟨ch, st0, raw, hmsg, hc, _, _, hh⟩ | ⟨ch, st0, raw, hmsg, hc, _, _, hh⟩
  · rw [hh]; constructor <;> simp [hmsg]
  · rw [hh]; constructor <;> simp [hmsg, hc]
  · rw [hh]; constructor <;> simp [hmsg, hc]
  · rw [hh]; constructor <;> simp [hmsg, hc]
  · rw [hh]; constructor <;> simp [hmsg, hc]

/-- Witness for C7: a whitespace message yields ValidationError; an
unknown id with a valid message yields NotFoundError. -/
theorem handle_error_kinds_witness :
    (handle cfgEx envOkEx worldEx 1 blankMsg).2 =
      Except.error PipelineError.validationFailed ∧
    (handle cfgEx envOkEx worldEx 99 exMsg).2 =
      Except.error PipelineError.notFound :=
  ⟨(handle_error_kinds cfgEx envOkEx worldEx 1 blankMsg).1.mpr (by decide),
   (handle_error_kinds cfgEx envOkEx worldEx 99 exMsg).2.mpr ⟨by decide, rfl⟩⟩

/-- C8: the interaction log is append-only.  Every call leaves the
existing records untouched and in place (the old log is an initial
segment of the new one), appends at most one record, appends exactly one
— stamped with the turn's time — on every completed run, and preserves
ordering by timestamp when the clock does not run backwards. -/
theorem interaction_log_append (cfg : Config) (env : Env) (w : World)
    (cid : Nat) (msg : String)
    (hsort : List.Pairwise byTime w.interactions)
    (hle : ∀ i ∈ w.interactions, i.timestamp ≤ env.now) :
    (∃ tail, (handle cfg env w cid msg).1.interactions = w.interactions ++ tail ∧
      tail.length ≤ 1) ∧
    (∀ rep, (handle cfg env w cid msg).2 = Except.ok rep →
      (handle cfg env w cid msg).1.interactions =
        w.interactions ++ [mkRecord cid msg rep env.now]) ∧
    List.Pairwise byTime (handle cfg env w cid msg).1.interactions := by
  rcases handle_spec cfg env w cid msg with
    ⟨_, hh⟩ | ⟨_, _, hh⟩ | ⟨ch, st0, k, _, _, _, hh⟩ |
    ⟨ch, st0, raw, _, _, _, _, hh⟩ | ⟨ch, st0, raw, _, _, _, _, hh⟩ <;> rw [hh]
  case _ =>
    exact ⟨⟨[], by simp, by simp⟩, fun rep hrep => by simp at hrep, hsort⟩
  case _ =>
    exact ⟨⟨[], by simp, by simp⟩, fun rep hrep => by simp at hrep, hsort⟩
  case _ =>
    exact ⟨⟨[], by simp, by simp⟩, fun rep hrep => by simp at hrep, hsort⟩
  case _ =>
    exact ⟨⟨[], by simp, by simp⟩, fun rep hrep => by simp at hrep, hsort⟩
  case _ =>
    refine ⟨⟨[mkRecord cid msg (parse raw) env.now], rfl, by simp⟩, ?_, ?_⟩
    · intro rep hrep
      simp only [Except.ok.injEq] at hrep
      subst hrep
      rfl
    · show List.Pairwise byTime (w.interactions ++ [mkRecord cid msg (parse raw) env.now])
      rw [List.pairwise_append]
      refine ⟨hsort, List.pairwise_singleton _ _, ?_⟩
      intro a ha b hb
      simp only [List.mem_singleton] at hb
      subst hb
      exact hle a ha

/-- Witness for C8 on a world with an empty log and a successful turn. -/
theorem interaction_log_append_witness :
    ∃ tail, (handle cfgEx envOkEx worldEx 1 exMsg).1.interactions =
      worldEx.interactions ++ tail ∧ tail.length ≤ 1 :=
  (interaction_log_append cfgEx envOkEx worldEx 1 exMsg (by simp [worldEx])
    (by simp [worldEx])).1

/-- C9: `handleSubmit` issues no request and changes no component state
when the input trims to empty or a send is in flight; and whenever a
request is issued, the trimmed input was non-empty, no send was in
flight, and the request carries the current input. -/
theorem handleSubmit_guard (s : DetailPageState)
    (api : Except String UIInteraction) :
    ((trimStr s.input = String.mk [] ∨ s.sending = true) →
      handleSubmit s api = (s, none)) ∧
    (∀ m, (handleSubmit s api).2 = some m →
      trimStr s.input ≠ String.mk [] ∧ s.sending = false ∧ m = s.input) := by
  constructor
  · intro h
    unfold handleSubmit
    rw [if_pos h]
  · intro m hm
    unfold handleSubmit at hm
    by_cases hg : trimStr s.input = String.mk [] ∨ s.sending = true
    · rw [if_pos hg] at hm
      simp at hm
    · rw [if_neg hg] at hm
      push_neg at hg
      obtain ⟨h1, h2⟩ := hg
      refine ⟨h1, by simpa using h2, ?_⟩
      cases api with
      | ok r => exact (Option.some.inj hm).symm
      | error e => exact (Option.some.inj hm).symm

/-- Witness for C9: with a send in flight, `handleSubmit` is a no-op. -/
theorem handleSubmit_guard_witness :
    handleSubmit { pageStateEx with sending := true } (Except.ok uiRespEx) =
      ({ pageStateEx with sending := true }, none) :=
  (handleSubmit_guard { pageStateEx with sending := true }
    (Except.ok uiRespEx)).1 (Or.inr rfl)

/-- C10: a failed interactions fetch does not fail the page load: when
the character fetch succeeds, `error` stays unset and a failing
interactions fetch leaves `interactions = []`; `error` becomes set only
when the character fetch itself failed. -/
theorem fetchData_resilient (charRes : Except String Character)
    (interRes : Except String (Option (List UIInteraction)))
    (s : DetailPageState) (hde : s.error = none) :
    (∀ c, charRes = Except.ok c →
      (fetchData charRes interRes s).error = none ∧
      (∀ e, interRes = Except.error e →
        (fetchData charRes interRes s).interactions = [])) ∧
    ((fetchData charRes interRes s).error ≠ none →
      ∃ e, charRes = Except.error e) := by
  constructor
  · intro c hc
    subst hc
    constructor
    · cases interRes <;> simp [fetchData, hde]
    · intro e he
      subst he
      simp [fetchData]
  · intro hne
    cases charRes with
    | ok c =>
        exact absurd (by cases interRes <;> simp [fetchData, hde]) hne
    | error e => exact ⟨e, rfl⟩

/-- Witness for C10: character fetch ok, interactions fetch failing. -/
theorem fetchData_resilient_witness :
    (fetchData (Except.ok charEx) (Except.error exErrMsg) pageStateEx).error = none ∧
    (fetchData (Except.ok charEx) (Except.error exErrMsg) pageStateEx).interactions = [] := by
  have h := (fetchData_resilient (Except.ok charEx) (Except.error exErrMsg)
    pageStateEx rfl).1 charEx rfl
  exact ⟨h.1, h.2 exErrMsg rfl⟩

end Unbounded
